import Mathlib

/-!
Verification of the Grok video automation workflow
(`src/grok_video_automation.py`) against its design specification.

The Python script drives a browser session through a linear sequence of
phases (setup, navigate, upload, edit, make-video, prompt wait, prompt
entry, generation monitoring, download, persistence).  We embed the
decision logic of each phase as executable Lean functions over explicit
models of the DOM snapshots the script inspects, and prove the claimed
properties about them.
-/

namespace GrokAuto

/-- `listContains haystack needle` is true iff `needle` occurs as a
contiguous sublist of `haystack`. -/
def listContains (haystack needle : List Char) : Bool :=
  match haystack with
  | [] => needle.isEmpty
  | c :: rest => needle.isPrefixOf (c :: rest) || listContains rest needle

/-- Substring test modelling Python's `needle in haystack` on strings. -/
def strContains (haystack needle : String) : Bool :=
  listContains haystack.data needle.data

/-- Character-wise lower-casing, modelling Python's `str.lower()` on the
ASCII identifiers and labels the script compares. -/
def strLower (s : String) : String := ⟨s.data.map Char.toLower⟩

/-- Leading/trailing-whitespace removal, modelling Python's `str.strip()`. -/
def strTrim (s : String) : String :=
  ⟨((s.data.dropWhile Char.isWhitespace).reverse.dropWhile Char.isWhitespace).reverse⟩

/-- Python's `str.startswith(pat)`. -/
def strStartsWith (s pat : String) : Bool := pat.data.isPrefixOf s.data

/-- A DOM element as observed by the script: tag name, Selenium
`is_displayed()` result, `text`, and the attributes the script reads
(`placeholder`, `src`, `aria-label`; a missing attribute is `""`, matching
`get_attribute(...) or ""`). -/
structure Element where
  tag : String
  displayed : Bool
  text : String
  placeholder : String
  src : String
  ariaLabel : String
deriving DecidableEq

/-! ## Phase 3A: `click_make_video_button` — target resolution

The script tries three identification strategies in order:
1. a fixed XPath lookup (`find_element`, wrapped in try/except; the element
   is assigned to `button` whether or not it is displayed — `is_displayed`
   only guards a log line);
2. scan all `<button>` elements for a displayed one whose stripped
   lowercased text or lowercased aria-label contains "video";
3. scan displayed `<footer>` elements for a displayed button whose
   stripped lowercased text contains "video" or "make".
-/

/-- A `<footer>` element together with the buttons found inside it. -/
structure Footer where
  displayed : Bool
  buttons : List Element
deriving DecidableEq

/-- The DOM state consulted by `click_make_video_button`:
`xpathButton` is the result of the fixed-XPath `find_element` call
(`none` models `NoSuchElementException` being raised), `buttons` is the
document-order list of all `<button>` elements, `footers` the document-order
list of `<footer>` elements. -/
structure EditorDOM where
  xpathButton : Option Element
  buttons : List Element
  footers : List Footer

/-- Strategy 2 match test: `"video" in btn.text.strip().lower() or
"video" in (btn.get_attribute("aria-label") or "").lower()`. -/
def matchesVideoButton (b : Element) : Bool :=
  strContains (strLower (strTrim b.text)) "video" || strContains (strLower b.ariaLabel) "video"

/-- Strategy 2: first displayed button whose text/aria-label mentions "video". -/
def strategy2 (buttons : List Element) : Option Element :=
  buttons.find? (fun b => b.displayed && matchesVideoButton b)

/-- Strategy 3 match test: `"video" in text or "make" in text` on the
stripped lowercased button text. -/
def matchesFooterButton (b : Element) : Bool :=
  strContains (strLower (strTrim b.text)) "video" || strContains (strLower (strTrim b.text)) "make"

/-- Strategy 3: walk displayed footers in document order, inside each take
the first displayed button whose text mentions "video" or "make". -/
def strategy3 : List Footer → Option Element
  | [] => none
  | f :: fs =>
    if f.displayed then
      match f.buttons.find? (fun b => b.displayed && matchesFooterButton b) with
      | some b => some b
      | none => strategy3 fs
    else strategy3 fs

/-- Resolution logic of `click_make_video_button`: strategy 1 wins whenever
the XPath lookup returns an element (displayed or not, because the code only
logs the visibility check); otherwise strategy 2, then strategy 3. -/
def resolveMakeVideoButton (d : EditorDOM) : Option Element :=
  match d.xpathButton with
  | some b => some b
  | none =>
    match strategy2 d.buttons with
    | some b => some b
    | none => strategy3 d.footers

/-! ## Phase 3A: `click_make_video_button` — click fallback chain -/

/-- The three click techniques the script loops over, in source order:
`execute_script("arguments[0].click()")`, `button.click()`,
`ActionChains(driver).move_to_element(button).click().perform()`. -/
inductive ClickMethod
  | javascript
  | native
  | actionChains
deriving DecidableEq

/-- The declared fallback order of the click loop in the source. -/
def clickOrder : List ClickMethod := [.javascript, .native, .actionChains]

/-- `tryClickMethods outcome ms` runs the click loop: each method is tried
in order; `.ok` means the call returned, `.error e` models a raised
exception (printed, then `continue`).  The first method that does not raise
is returned; if all raise the loop falls through (`none`, i.e. the phase
returns `False`). -/
def tryClickMethods (outcome : ClickMethod → Except String Unit) :
    List ClickMethod → Option ClickMethod
  | [] => none
  | m :: ms =>
    match outcome m with
    | .ok _ => some m
    | .error _ => tryClickMethods outcome ms

/-- Overall result of `click_make_video_button`: `False` when no strategy
resolved a button, otherwise the click chain decides. -/
def click_make_video_button (d : EditorDOM)
    (outcome : ClickMethod → Except String Unit) : Bool :=
  match resolveMakeVideoButton d with
  | none => false
  | some _ => (tryClickMethods outcome clickOrder).isSome

/-! ## Phase 3B: `wait_for_prompt_textarea` -/

/-- The placeholder keyword vocabulary of the prompt-textarea wait. -/
def promptKeywords : List String := ["customize", "video", "describe", "prompt"]

/-- The per-element test of the wait loop: displayed and the lowercased
placeholder contains one of the keywords. -/
def isPromptTextarea (e : Element) : Bool :=
  e.displayed && promptKeywords.any (fun k => strContains (strLower e.placeholder) k)

/-- One poll iteration as seen by the wait loop: either a DOM snapshot
(the list of `<textarea>` elements in document order) or a raised
exception. -/
inductive PollStep
  | snapshot (textareas : List Element)
  | raise (msg : String)

/-- Result of the wait phase: `success` is the Python return value,
`matched` records whether a keyword textarea was found, `elapsed` is the
value stored into `wait_time_worked` (left at its initial `0` when no match
was found). -/
structure WaitResult where
  success : Bool
  matched : Bool
  elapsed : Nat
deriving DecidableEq

/-- The wait loop, polling once per second: at time `t` with `r` polls
remaining, inspect the snapshot; a raised exception returns `True`
immediately (the enclosing `except` block), a keyword match returns `True`
recording the elapsed time, exhaustion of the 60s budget returns `True`
anyway (soft timeout). -/
def waitAux (trace : Nat → PollStep) : Nat → Nat → WaitResult
  | _, 0 => ⟨true, false, 0⟩
  | t, r + 1 =>
    match trace t with
    | .raise _ => ⟨true, false, 0⟩
    | .snapshot tas =>
      match tas.find? isPromptTextarea with
      | some _ => ⟨true, true, t⟩
      | none => waitAux trace (t + 1) r

/-- `wait_for_prompt_textarea`: 60 one-second polls starting at t = 0. -/
def wait_for_prompt_textarea (trace : Nat → PollStep) : WaitResult :=
  waitAux trace 0 60

/-! ## Phase 3C: `find_and_enter_prompt` -/

/-- Result of the prompt-entry phase: `success` is the return value,
`placeholderRecorded` is `prompt_textarea_placeholder`, `target` the
textarea the prompt was typed into. -/
structure EnterPromptResult where
  success : Bool
  placeholderRecorded : Option String
  target : Option Element
deriving DecidableEq

/-- `find_and_enter_prompt`: scan the `<textarea>` list in document order,
and type + submit into the first displayed one, whatever its placeholder
says; with no displayed textarea the phase returns `False`. -/
def find_and_enter_prompt : List Element → EnterPromptResult
  | [] => ⟨false, none, none⟩
  | t :: rest =>
    if t.displayed then ⟨true, some t.placeholder, some t⟩
    else find_and_enter_prompt rest

/-! ## Phase 3D: `monitor_video_generation` -/

/-- Validity test for a video `src` as written in the source:
`src and (src.startswith("blob:") or src.startswith("http"))`. -/
def validVideoSrc (src : String) : Bool :=
  (!src.data.isEmpty) && (strStartsWith src "blob:" || strStartsWith src "http")

/-- The monitor accepts a `<video>` element iff it is displayed and its
`src` attribute is valid. -/
def acceptVideo (e : Element) : Bool :=
  e.displayed && validVideoSrc e.src

/-- One monitor poll: the `<video>` elements and the
`button[aria-label*='ownload']` matches of that snapshot. -/
structure MonitorSnapshot where
  videos : List Element
  downloadButtons : List Element

/-- Download-button test: displayed and lowercased aria-label contains
"download". -/
def findDownloadButton (btns : List Element) : Option Element :=
  btns.find? (fun b => b.displayed && strContains (strLower b.ariaLabel) "download")

/-- The monitor loop, polling every 2 seconds for up to 180 s (90 polls):
the first displayed video with a valid src is accepted; the same snapshot
is then searched for a download button, which is returned if found,
otherwise the video element itself; with no accepted video in any poll the
loop times out and returns `None`. -/
def monitorAux (trace : Nat → MonitorSnapshot) : Nat → Nat → Option (Element × Nat)
  | _, 0 => none
  | i, r + 1 =>
    match (trace i).videos.find? acceptVideo with
    | some v =>
      match findDownloadButton (trace i).downloadButtons with
      | some b => some (b, 2 * i)
      | none => some (v, 2 * i)
    | none => monitorAux trace (i + 1) r

/-- `monitor_video_generation`: 90 two-second polls starting at poll 0. -/
def monitor_video_generation (trace : Nat → MonitorSnapshot) :
    Option (Element × Nat) :=
  monitorAux trace 0 90

/-! ## Learning data: `load_learning` and Phase 1 `upload_image` -/

/-- How the attempt to read a learning-data file can go: the file is
missing, reading/parsing raised, or it parsed to data. -/
inductive FileRead
  | missing
  | unreadable
  | content (waitTime : Option Nat)

/-- Parsed learning data: the only field `upload_image` reads is
`recommendations.wait_time`, `none` when the key chain is absent. -/
structure LearnData where
  waitTime : Option Nat
deriving DecidableEq

/-- `load_learning`: a missing file falls through to `return None`; an
exception while reading or parsing is caught and also yields `None`. -/
def load_learning : FileRead → Option LearnData
  | .missing => none
  | .unreadable => none
  | .content w => some ⟨w⟩

/-- An `input[type=file]` element; the script only reads its `name`. -/
structure FileInput where
  name : String
deriving DecidableEq

/-- Input selection in `upload_image`: the input named "files" if present,
else the first input. -/
def pickFileInput (inputs : List FileInput) : Option FileInput :=
  match inputs.find? (fun fi => fi.name = "files") with
  | some fi => some fi
  | none => inputs.head?

/-- The wait budget of `upload_image`: `wait_time = 5`, overridden by
`upload_learning.get("recommendations", {}).get("wait_time", 5)` when
learning data was loaded. -/
def uploadWaitTime (learning : Option LearnData) : Nat :=
  match learning with
  | none => 5
  | some d => d.waitTime.getD 5

/-- Result of `upload_image`. -/
structure UploadResult where
  success : Bool
  waitUsed : Nat
  chosenInput : Option FileInput
deriving DecidableEq

/-- `upload_image`: compute the wait budget, find the file inputs, fail if
there are none, else send the file to the chosen input and sleep the
budget. -/
def upload_image (learning : Option LearnData) (inputs : List FileInput) :
    UploadResult :=
  let wt := uploadWaitTime learning
  match pickFileInput inputs with
  | none => ⟨false, wt, none⟩
  | some fi => ⟨true, wt, some fi⟩

/-! ## The orchestrator: `run_automation`

`run_automation` runs the phases in a fixed order inside a
`try/except KeyboardInterrupt/except Exception/finally` block.  Each
required phase that returns `False` makes the run return `False`
immediately; the `finally` block quits the driver whenever one was created;
`save_learning_data` is only reached after the monitoring phase, and the
summary/save/interactive tail runs whether or not monitoring produced an
element.

We model the environment a run executes against (`Env`), model
`KeyboardInterrupt` as being raised at the start of phase `k` (`intr = some
k`), and compute the observable outcome of the run.  Phase numbering:
0 `setup_driver`, 1 `navigate_to_grok`, 2 `upload_image`,
3 `click_edit_image_button`, 4 `click_make_video_button`,
5 `wait_for_prompt_textarea`, 6 `find_and_enter_prompt`,
7 `monitor_video_generation`, 8 `download_video`, 9 `save_learning_data`
(with the summary), 10 `interactive_mode` (which catches the interrupt
itself and returns normally).
-/

/-- How `setup_driver` can end: success; `uc.Chrome(...)` raised so no
driver exists; or a later step of setup raised after `self.driver` was
assigned. -/
inductive SetupOutcome
  | okDriver
  | failNoDriver
  | failWithDriver
deriving DecidableEq

/-- The external environment one run executes against. -/
structure Env where
  setup : SetupOutcome
  navigateOk : Bool
  uploadLearningFile : FileRead
  fileInputs : List FileInput
  editOk : Bool
  editorDom : EditorDOM
  clickOutcome : ClickMethod → Except String Unit
  promptTrace : Nat → PollStep
  enterTextareas : List Element
  monitorTrace : Nat → MonitorSnapshot
  downloadOk : Bool

/-- How the `try` block of `run_automation` was exited. -/
inductive ExitKind
  | normal
  | phaseFail
  | interrupted
deriving DecidableEq

/-- Observable outcome of one `run_automation` call: the return value, how
the `try` block exited, whether `driver.quit()` ran in the `finally` block,
whether `save_learning_data` wrote the run-data file, the `download.success`
field of that file (the `video_downloaded` flag), and whether
`download_video` was invoked. -/
structure RunOutcome where
  retVal : Bool
  exit : ExitKind
  driverQuit : Bool
  saved : Bool
  savedDownloadSuccess : Bool
  downloadCalled : Bool
deriving DecidableEq

/-- Build a `RunOutcome` for an exit with no save and no download. -/
def earlyExit (retVal : Bool) (exit : ExitKind) (driverQuit : Bool) : RunOutcome :=
  ⟨retVal, exit, driverQuit, false, false, false⟩

/-- One required phase as sequenced by `run_automation`: a
`KeyboardInterrupt` at the start of phase `k` exits the `try` block (the
driver exists by now); a phase returning `False` is fatal (`return False`);
otherwise the run continues with `rest`.  This is the
`if not self.<phase>(): return False` pattern of the source. -/
def phaseStep (k : Nat) (intr : Option Nat) (ok : Bool) (rest : RunOutcome) : RunOutcome :=
  if intr = some k then earlyExit false .interrupted true
  else if !ok then earlyExit false .phaseFail true
  else rest

/-- The tail of the run after prompt entry: monitoring (phase 7), the
download phase (8, only when the monitor returned an element), then the
summary and `save_learning_data` (9) and `interactive_mode` (10, which
catches its own `KeyboardInterrupt` and returns normally).  The monitor
returning `None` skips the download; `video_downloaded` stays `False`. -/
def monitorTail (env : Env) (intr : Option Nat) : RunOutcome :=
  if intr = some 7 then earlyExit false .interrupted true
  else
    match monitor_video_generation env.monitorTrace with
    | some _ =>
      if intr = some 8 then earlyExit false .interrupted true
      else if intr = some 9 then ⟨false, .interrupted, true, false, false, true⟩
      else ⟨true, .normal, true, true, env.downloadOk, true⟩
    | none =>
      if intr = some 9 then earlyExit false .interrupted true
      else ⟨true, .normal, true, true, false, false⟩

/-- The whole of `run_automation`: sequence the phases against `env`,
short-circuit on a failing required phase, raise `KeyboardInterrupt` at the
start of phase `intr` when given, and apply the `finally` teardown (the
driver is quit exactly when one exists at exit). -/
def run_automation (env : Env) (intr : Option Nat) : RunOutcome :=
  if intr = some 0 then earlyExit false .interrupted false
  else
    match env.setup with
    | .failNoDriver => earlyExit false .phaseFail false
    | .failWithDriver => earlyExit false .phaseFail true
    | .okDriver =>
      phaseStep 1 intr env.navigateOk <|
      phaseStep 2 intr (upload_image (load_learning env.uploadLearningFile) env.fileInputs).success <|
      phaseStep 3 intr env.editOk <|
      phaseStep 4 intr (click_make_video_button env.editorDom env.clickOutcome) <|
      phaseStep 5 intr (wait_for_prompt_textarea env.promptTrace).success <|
      phaseStep 6 intr (find_and_enter_prompt env.enterTextareas).success <|
      monitorTail env intr

/-! ## Helper predicates and lemmas -/

/-- A poll step on which the wait loop returns with a match. -/
def pollMatch : PollStep → Bool
  | .snapshot tas => (tas.find? isPromptTextarea).isSome
  | .raise _ => false

/-- A poll step on which the wait loop keeps going: a snapshot with no
matching textarea (a raised exception ends the loop instead). -/
def pollClear : PollStep → Bool
  | .snapshot tas => (tas.find? isPromptTextarea).isNone
  | .raise _ => false

/-- The wait loop returns `True` whatever the trace does. -/
lemma waitAux_success (trace : Nat → PollStep) :
    ∀ (r t : Nat), (waitAux trace t r).success = true := by
  intro r
  induction r with
  | zero => intro t; rfl
  | succ r ih =>
    intro t
    unfold waitAux
    split
    · rfl
    · split
      · rfl
      · exact ih (t + 1)

/-- If every step in the window is clear, the wait loop times out with no
match and `wait_time_worked` left at `0`. -/
lemma waitAux_timeout (trace : Nat → PollStep) :
    ∀ (r t0 : Nat), (∀ s, t0 ≤ s → s < t0 + r → pollClear (trace s) = true) →
      waitAux trace t0 r = ⟨true, false, 0⟩ := by
  intro r
  induction r with
  | zero => intro t0 _; rfl
  | succ r ih =>
    intro t0 h
    have hc := h t0 (Nat.le_refl _) (by omega)
    unfold waitAux
    split
    · rfl
    · rename_i tas hp
      rw [hp] at hc
      simp only [pollClear, Option.isNone_iff_eq_none] at hc
      split
      · rename_i e he; rw [he] at hc; cases hc
      · exact ih (t0 + 1) (fun s hs1 hs2 => h s (by omega) (by omega))

/-- If the first non-clear step in the window is a match at time `t`, the
wait loop returns a match with elapsed time `t`. -/
lemma waitAux_hit (trace : Nat → PollStep) :
    ∀ (r t0 t : Nat), t0 ≤ t → t < t0 + r →
      (∀ s, t0 ≤ s → s < t → pollClear (trace s) = true) →
      pollMatch (trace t) = true →
      waitAux trace t0 r = ⟨true, true, t⟩ := by
  intro r
  induction r with
  | zero => intro t0 t h1 h2 _ _; omega
  | succ r ih =>
    intro t0 t h1 h2 hclear hmatch
    unfold waitAux
    rcases Nat.eq_or_lt_of_le h1 with heq | hlt
    · subst heq
      split
      · rename_i m hp; rw [hp] at hmatch; simp [pollMatch] at hmatch
      · rename_i tas hp
        rw [hp] at hmatch
        simp only [pollMatch] at hmatch
        split
        · rfl
        · rename_i he; rw [he] at hmatch; cases hmatch
    · have hc := hclear t0 (Nat.le_refl _) hlt
      split
      · rename_i m hp; rw [hp] at hc; simp [pollClear] at hc
      · rename_i tas hp
        rw [hp] at hc
        simp only [pollClear, Option.isNone_iff_eq_none] at hc
        split
        · rename_i e he; rw [he] at hc; cases hc
        · exact ih (t0 + 1) t hlt (by omega) (fun s hs1 hs2 => hclear s (by omega) hs2) hmatch

/-! ## Claims C4 and C9 -/

/-- C4: the prompt-textarea wait is bounded by 60 one-second polls and its
timeout is soft.  (i) The phase returns success on every trace.  (ii) If at
time `t < 60` a visible textarea whose placeholder contains one of the fixed
keywords first appears (all earlier polls being quiet snapshots), the phase
succeeds with the elapsed time `t` recorded.  (iii) If no such textarea
appears within the bound, the phase still reports success (with no match
recorded), so the workflow proceeds to the next phase. -/
theorem prompt_wait_bounded_soft_timeout (trace : Nat → PollStep) :
    (wait_for_prompt_textarea trace).success = true ∧
    (∀ t, t < 60 → (∀ s, s < t → pollClear (trace s) = true) →
      pollMatch (trace t) = true →
      wait_for_prompt_textarea trace = ⟨true, true, t⟩) ∧
    ((∀ s, s < 60 → pollClear (trace s) = true) →
      wait_for_prompt_textarea trace = ⟨true, false, 0⟩) := by
  refine ⟨waitAux_success trace 60 0, ?_, ?_⟩
  · intro t ht hclear hmatch
    exact waitAux_hit trace 60 0 t (Nat.zero_le _) (by omega)
      (fun s _ hs2 => hclear s hs2) hmatch
  · intro h
    exact waitAux_timeout trace 60 0 (fun s _ hs2 => h s (by omega))

/-- A concrete trace on which the prompt textarea appears at t = 3. -/
def promptTraceW : Nat → PollStep := fun t =>
  if t = 3 then
    PollStep.snapshot [⟨"textarea", true, "", "Describe your video...", "", ""⟩]
  else PollStep.snapshot []

/-- Witness for C4: on `promptTraceW` the wait succeeds at t = 3 with the
elapsed time recorded. -/
theorem prompt_wait_bounded_soft_timeout_witness :
    wait_for_prompt_textarea promptTraceW = ⟨true, true, 3⟩ :=
  (prompt_wait_bounded_soft_timeout promptTraceW).2.1 3 (by decide)
    (by decide) (by decide)

/-- C9: the prompt-textarea wait phase returns success for every possible
outcome — keyword match, timeout of the 60 s budget, or an exception raised
during polling — so this phase alone can never terminate the run. -/
theorem prompt_wait_always_returns_success (trace : Nat → PollStep) :
    (wait_for_prompt_textarea trace).success = true :=
  waitAux_success trace 60 0

/-! ## Claim C5: the Completion Monitor's validity test -/

/-- One unfolding step of the monitor loop. -/
lemma monitorAux_step (trace : Nat → MonitorSnapshot) (i r : Nat) :
    monitorAux trace i (r + 1) =
      match (trace i).videos.find? acceptVideo with
      | some v =>
        match findDownloadButton (trace i).downloadButtons with
        | some b => some (b, 2 * i)
        | none => some (v, 2 * i)
      | none => monitorAux trace (i + 1) r := rfl

/-- If no snapshot in the window contains an acceptable video, the monitor
loop returns `none`. -/
lemma monitorAux_none (trace : Nat → MonitorSnapshot) :
    ∀ (r i0 : Nat),
      (∀ i, i0 ≤ i → i < i0 + r → (trace i).videos.find? acceptVideo = none) →
      monitorAux trace i0 r = none := by
  intro r
  induction r with
  | zero => intro i0 _; rfl
  | succ r ih =>
    intro i0 h
    unfold monitorAux
    split
    · rename_i v hv
      rw [h i0 (Nat.le_refl _) (by omega)] at hv
      cases hv
    · exact ih (i0 + 1) (fun i hi1 hi2 => h i (by omega) (by omega))

/-- C5: the Completion Monitor accepts a `<video>` element only if it is
displayed and its `src` is non-empty and starts with `blob:` or `http`; an
element whose `src` is empty (or otherwise fails the validity test) is
rejected on every one of the 90 poll cycles, however long it has been
present, and the monitor then times out with `none`; conversely a snapshot
whose first acceptable video carries a recognized scheme makes the monitor
return an element. -/
theorem monitor_accepts_only_wellformed (trace : Nat → MonitorSnapshot) :
    (∀ (s : MonitorSnapshot) (v : Element),
        s.videos.find? acceptVideo = some v →
        v.displayed = true ∧ v.src ≠ "" ∧
          (strStartsWith v.src "blob:" = true ∨ strStartsWith v.src "http" = true)) ∧
    ((∀ i, i < 90 → ∀ v ∈ (trace i).videos, validVideoSrc v.src = false) →
      monitor_video_generation trace = none) ∧
    (∀ v, (trace 0).videos.find? acceptVideo = some v →
      (monitor_video_generation trace).isSome = true) := by
  refine ⟨?_, ?_, ?_⟩
  · intro s v hfind
    have h := List.find?_some hfind
    simp only [acceptVideo, validVideoSrc, Bool.and_eq_true, Bool.or_eq_true,
      Bool.not_eq_true'] at h
    refine ⟨h.1, ?_, h.2.2⟩
    intro hsrc
    rw [hsrc] at h
    exact absurd h.2.1 (by decide)
  · intro h
    apply monitorAux_none
    intro i _ hi
    rw [List.find?_eq_none]
    intro v hv
    simp [acceptVideo, h i (by omega) v hv]
  · intro v hv
    show (monitorAux trace 0 (89 + 1)).isSome = true
    rw [monitorAux_step, hv]
    cases hb : findDownloadButton (trace 0).downloadButtons <;> simp [hb]

/-- A trace on which a displayed `<video>` element with an empty `src` is
present on every poll cycle. -/
def traceC5 : Nat → MonitorSnapshot := fun _ =>
  ⟨[⟨"video", true, "", "", "", ""⟩], []⟩

/-- Witness for C5: the empty-src video is never accepted, so the monitor
times out. -/
theorem monitor_accepts_only_wellformed_witness :
    monitor_video_generation traceC5 = none :=
  (monitor_accepts_only_wellformed traceC5).2.1
    (fun i _ v hv => by
      simp only [traceC5, List.mem_singleton] at hv
      subst hv
      rfl)

/-! ## Claim C7: guaranteed Session teardown -/

/-- A phase step preserves "the driver is quit at exit". -/
lemma phaseStep_quit (k : Nat) (intr : Option Nat) (ok : Bool) (rest : RunOutcome)
    (h : rest.driverQuit = true) : (phaseStep k intr ok rest).driverQuit = true := by
  unfold phaseStep
  split
  · rfl
  · split
    · rfl
    · exact h

/-- The monitoring tail always quits the driver at exit. -/
lemma monitorTail_quit (env : Env) (intr : Option Nat) :
    (monitorTail env intr).driverQuit = true := by
  unfold monitorTail
  (repeat' split) <;> rfl

/-- C7: on every exit path of a run — normal completion, fatal phase
failure at any phase, or a `KeyboardInterrupt` raised at the start of any
phase after driver creation — the `finally` block quits the browser driver
whenever one was created (`intr ≠ some 0` excludes an interrupt before
`setup_driver` ran, and `setup ≠ failNoDriver` excludes the one setup
outcome in which no driver object ever existed). -/
theorem session_teardown_on_every_exit (env : Env) (intr : Option Nat)
    (hintr : intr ≠ some 0) (hsetup : env.setup ≠ SetupOutcome.failNoDriver) :
    (run_automation env intr).driverQuit = true := by
  unfold run_automation
  rw [if_neg hintr]
  cases hs : env.setup with
  | failNoDriver => exact absurd hs hsetup
  | failWithDriver => rfl
  | okDriver =>
    apply phaseStep_quit
    apply phaseStep_quit
    apply phaseStep_quit
    apply phaseStep_quit
    apply phaseStep_quit
    apply phaseStep_quit
    exact monitorTail_quit env intr

/-- An environment whose navigation phase fails fatally. -/
def envC7 : Env :=
  ⟨.okDriver, false, .missing, [], false, ⟨none, [], []⟩, fun _ => Except.error "e",
    fun _ => PollStep.snapshot [], [], fun _ => ⟨[], []⟩, false⟩

/-- Witness for C7: a run whose navigation phase fails still quits the
driver. -/
theorem session_teardown_on_every_exit_witness :
    (run_automation envC7 none).driverQuit = true :=
  session_teardown_on_every_exit envC7 none (by decide) (by decide)

/-! ## Claim C1: what happens on a fatal phase failure

The claim states that a fatal phase outcome still persists the partial run
record.  In the source, `save_learning_data` is called only on the success
path of `run_automation`, after the monitoring phase; every required phase
that returns `False` makes `run_automation` return `False` immediately,
reaching the `finally` teardown but never the save.  So teardown happens,
persistence does not. -/

/-- A fatal-exit analysis for one phase step: if the step exits with
`phaseFail`, the run returned `False`, nothing was saved, and the driver was
quit — provided the continuation satisfies the same property. -/
lemma phaseStep_fatal (k : Nat) (intr : Option Nat) (ok : Bool) (rest : RunOutcome)
    (hrest : rest.exit = ExitKind.phaseFail →
      rest.retVal = false ∧ rest.saved = false ∧ rest.driverQuit = true)
    (h : (phaseStep k intr ok rest).exit = ExitKind.phaseFail) :
    (phaseStep k intr ok rest).retVal = false ∧
    (phaseStep k intr ok rest).saved = false ∧
    (phaseStep k intr ok rest).driverQuit = true := by
  revert h
  unfold phaseStep
  split
  · intro h; exact absurd h (by decide)
  · split
    · intro _; exact ⟨rfl, rfl, rfl⟩
    · exact hrest

/-- The monitoring tail never exits with `phaseFail` (a monitor timeout is
not fatal), so the fatal-exit property holds of it vacuously. -/
lemma monitorTail_fatal (env : Env) (intr : Option Nat)
    (h : (monitorTail env intr).exit = ExitKind.phaseFail) :
    (monitorTail env intr).retVal = false ∧ (monitorTail env intr).saved = false ∧
      (monitorTail env intr).driverQuit = true := by
  revert h
  unfold monitorTail
  (repeat' split) <;> intro h <;> exact ExitKind.noConfusion h

/-- C1 (amended): on every run that ends in a fatal phase outcome the
workflow stops advancing phases (returns `False`) and still performs
Session teardown whenever a driver was created, but the run-data file is
NOT written: `save_learning_data` is only reached on runs whose required
phases all succeed. -/
theorem fatal_failure_teardown_without_persist (env : Env) (intr : Option Nat)
    (h : (run_automation env intr).exit = ExitKind.phaseFail) :
    (run_automation env intr).retVal = false ∧
    (run_automation env intr).saved = false ∧
    (env.setup ≠ SetupOutcome.failNoDriver → (run_automation env intr).driverQuit = true) := by
  revert h
  unfold run_automation
  split
  · intro h; exact absurd h (by decide)
  · split
    · rename_i heq
      intro _
      exact ⟨rfl, rfl, fun hne => absurd heq hne⟩
    · intro _
      exact ⟨rfl, rfl, fun _ => rfl⟩
    · intro h
      have hc :=
        phaseStep_fatal 1 intr _ _
          (phaseStep_fatal 2 intr _ _
            (phaseStep_fatal 3 intr _ _
              (phaseStep_fatal 4 intr _ _
                (phaseStep_fatal 5 intr _ _
                  (phaseStep_fatal 6 intr _ _
                    (monitorTail_fatal env intr)))))) h
      exact ⟨hc.1, hc.2.1, fun _ => hc.2.2⟩

/-- An environment in which the upload phase fails fatally (no file inputs
on the page). -/
def envC1 : Env :=
  ⟨.okDriver, true, .missing, [], false, ⟨none, [], []⟩, fun _ => Except.error "e",
    fun _ => PollStep.snapshot [], [], fun _ => ⟨[], []⟩, false⟩

/-- Counterexample for C1 as stated: this run ends in a fatal phase outcome
(the upload phase fails) and the driver is quit, but the run-data file is
not written — persistence of the partial record does not happen. -/
theorem fatal_failure_no_persist_counterexample :
    (run_automation envC1 none).exit = ExitKind.phaseFail ∧
    (run_automation envC1 none).retVal = false ∧
    (run_automation envC1 none).driverQuit = true ∧
    (run_automation envC1 none).saved = false :=
  ⟨rfl, rfl, rfl, rfl⟩

/-- Witness for the amended C1 at the concrete failing run. -/
theorem fatal_failure_teardown_without_persist_witness :
    (run_automation envC1 none).saved = false :=
  (fatal_failure_teardown_without_persist envC1 none rfl).2.1

/-! ## Claim C6: monitor timeout ends the run gracefully -/

/-- With no interrupt, a succeeding phase is transparent. -/
lemma phaseStep_ok (k : Nat) (ok : Bool) (rest : RunOutcome) (h : ok = true) :
    phaseStep k none ok rest = rest := by
  simp [phaseStep, h]

/-- With no interrupt and a timed-out monitor, the tail of the run skips
the download, saves the run data with `download.success = False`, and
returns `True`. -/
lemma monitorTail_none (env : Env)
    (hm : monitor_video_generation env.monitorTrace = none) :
    monitorTail env none = ⟨true, .normal, true, true, false, false⟩ := by
  simp [monitorTail, hm]

/-- C6: when the terminal artifact never becomes well-formed within the
180 s monitoring bound (no poll cycle has an acceptable video), the monitor
yields `none`, the Download phase is skipped, the run-data file is still
written with the download recorded as unsuccessful, the run returns
normally, and the Session is torn down. -/
theorem monitor_timeout_skips_download_still_saves (env : Env)
    (h1 : env.setup = SetupOutcome.okDriver)
    (h2 : env.navigateOk = true)
    (h3 : (upload_image (load_learning env.uploadLearningFile) env.fileInputs).success = true)
    (h4 : env.editOk = true)
    (h5 : click_make_video_button env.editorDom env.clickOutcome = true)
    (h6 : (find_and_enter_prompt env.enterTextareas).success = true)
    (h7 : ∀ i, i < 90 → (env.monitorTrace i).videos.find? acceptVideo = none) :
    (run_automation env none).downloadCalled = false ∧
    (run_automation env none).saved = true ∧
    (run_automation env none).savedDownloadSuccess = false ∧
    (run_automation env none).driverQuit = true ∧
    (run_automation env none).exit = ExitKind.normal := by
  have hm : monitor_video_generation env.monitorTrace = none :=
    monitorAux_none env.monitorTrace 90 0 (fun i _ hi => h7 i (by omega))
  have hw : (wait_for_prompt_textarea env.promptTrace).success = true :=
    waitAux_success env.promptTrace 60 0
  have hrun : run_automation env none = ⟨true, .normal, true, true, false, false⟩ := by
    simp [run_automation, h1, phaseStep_ok, h2, h3, h4, h5, h6, hw, monitorTail_none, hm]
  rw [hrun]
  exact ⟨rfl, rfl, rfl, rfl, rfl⟩

/-- A well-behaved "Make video" button used by the concrete environments. -/
def makeVideoBtn : Element := ⟨"button", true, "Make video", "", "", ""⟩

/-- An environment in which every phase up to prompt entry succeeds but no
video ever gets a valid src. -/
def envC6 : Env :=
  ⟨.okDriver, true, .missing, [⟨"files"⟩], true, ⟨some makeVideoBtn, [], []⟩,
    fun _ => Except.ok (), fun _ => PollStep.snapshot [],
    [⟨"textarea", true, "", "", "", ""⟩], fun _ => ⟨[], []⟩, false⟩

/-- Witness for C6 at the concrete timing-out run. -/
theorem monitor_timeout_skips_download_still_saves_witness :
    (run_automation envC6 none).downloadCalled = false :=
  (monitor_timeout_skips_download_still_saves envC6 rfl rfl rfl rfl rfl rfl
    (fun _ _ => rfl)).1

/-! ## Claim C2: the click fallback chain

The claim states the declared order is simulated pointer movement
(`ActionChains`) first, then native click, then script-level invocation.
The source's loop order is the reverse: `execute_script` first, then
`button.click()`, then `ActionChains`. -/

/-- Counterexample for C2 as stated: in a run where every click method
succeeds, the loop stops at its first method, which is the script-level
(JavaScript) click, not the simulated pointer movement the claim puts
first. -/
theorem click_order_counterexample :
    tryClickMethods (fun _ => Except.ok ()) clickOrder = some ClickMethod.javascript ∧
    ClickMethod.javascript ≠ ClickMethod.actionChains :=
  ⟨rfl, by decide⟩

/-- C2 (amended): for the Make-video click, the interaction methods are
attempted in the fixed declared order script-level (JavaScript) invocation
first, then native element click, then simulated pointer movement + click
(`ActionChains`), stopping at the first method that completes without
raising; if all three raise, the phase reports failure (each method's error
having been logged as it failed). -/
theorem click_fallback_chain_order (outcome : ClickMethod → Except String Unit) :
    (outcome .javascript = Except.ok () →
      tryClickMethods outcome clickOrder = some ClickMethod.javascript) ∧
    (∀ e, outcome .javascript = Except.error e → outcome .native = Except.ok () →
      tryClickMethods outcome clickOrder = some ClickMethod.native) ∧
    (∀ e1 e2, outcome .javascript = Except.error e1 → outcome .native = Except.error e2 →
      outcome .actionChains = Except.ok () →
      tryClickMethods outcome clickOrder = some ClickMethod.actionChains) ∧
    (∀ e1 e2 e3, outcome .javascript = Except.error e1 → outcome .native = Except.error e2 →
      outcome .actionChains = Except.error e3 →
      tryClickMethods outcome clickOrder = none) := by
  refine ⟨?_, ?_, ?_, ?_⟩
  · intro h; simp [tryClickMethods, clickOrder, h]
  · intro e h1 h2; simp [tryClickMethods, clickOrder, h1, h2]
  · intro e1 e2 h1 h2 h3; simp [tryClickMethods, clickOrder, h1, h2, h3]
  · intro e1 e2 e3 h1 h2 h3; simp [tryClickMethods, clickOrder, h1, h2, h3]

/-- A click environment where the first (JavaScript) method raises and the
second (native) succeeds. -/
def outcomeC2 : ClickMethod → Except String Unit := fun m =>
  match m with
  | .javascript => Except.error "js blocked"
  | .native => Except.ok ()
  | .actionChains => Except.error "not reached"

/-- Witness for the amended C2: with the first method failing and the
second succeeding, the loop reports the second method. -/
theorem click_fallback_chain_order_witness :
    tryClickMethods outcomeC2 clickOrder = some ClickMethod.native :=
  (click_fallback_chain_order outcomeC2).2.1 "js blocked" rfl rfl

/-! ## Claim C3: target resolution strategy order

The claim states every strategy's matches are filtered to visible elements,
so an element found by an earlier strategy but not visible must not be
selected.  In the source, strategy 1 (the fixed XPath) assigns the found
element to `button` unconditionally — `is_displayed()` only guards a log
line — so a hidden XPath match wins over a visible strategy-2 match. -/

/-- A strategy-2 hit is a displayed element. -/
lemma strategy2_displayed (btns : List Element) (b : Element)
    (h : strategy2 btns = some b) : b.displayed = true := by
  unfold strategy2 at h
  have h2 := List.find?_some h
  exact (Bool.and_eq_true_iff.mp h2).1

/-- A strategy-3 hit is a displayed element. -/
lemma strategy3_displayed :
    ∀ (fs : List Footer) (b : Element), strategy3 fs = some b → b.displayed = true := by
  intro fs
  induction fs with
  | nil => intro b h; simp [strategy3] at h
  | cons f fs ih =>
    intro b h
    unfold strategy3 at h
    split at h
    · split at h
      · rename_i b2 hb2
        injection h with h2
        subst h2
        have h3 := List.find?_some hb2
        exact (Bool.and_eq_true_iff.mp h3).1
      · exact ih b h
    · exact ih b h

/-- The hidden element sitting at the fixed XPath. -/
def hiddenXPathButton : Element := ⟨"button", false, "Make video", "", "", ""⟩

/-- A visible button whose text matches strategy 2. -/
def visibleVideoButton : Element := ⟨"button", true, "Make video", "", "", ""⟩

/-- A DOM in which the XPath element exists but is hidden, while a visible
"Make video" button is available to strategy 2. -/
def dC3 : EditorDOM := ⟨some hiddenXPathButton, [visibleVideoButton], []⟩

/-- Counterexample for C3 as stated: resolution returns the hidden XPath
element even though it is not visible and a later strategy has a visible
match — the visibility filter does not apply to strategy 1. -/
theorem resolver_visibility_counterexample :
    resolveMakeVideoButton dC3 = some hiddenXPathButton ∧
    hiddenXPathButton.displayed = false ∧
    strategy2 dC3.buttons = some visibleVideoButton ∧
    visibleVideoButton.displayed = true :=
  ⟨rfl, rfl, rfl, rfl⟩

/-- C3 (amended): the resolver iterates the three strategies in declared
order and returns the first strategy's candidate; a strategy-1 lookup
failure (raised `NoSuchElementException`) is treated as no match and
resolution falls through to strategy 2, then strategy 3, each of which
yields only currently-displayed elements; but strategy 1 returns whatever
element the fixed XPath finds, visible or not. -/
theorem resolver_strategy_order (d : EditorDOM) :
    (∀ b, d.xpathButton = some b → resolveMakeVideoButton d = some b) ∧
    (d.xpathButton = none → ∀ b, strategy2 d.buttons = some b →
      resolveMakeVideoButton d = some b) ∧
    (d.xpathButton = none → strategy2 d.buttons = none →
      resolveMakeVideoButton d = strategy3 d.footers) ∧
    (d.xpathButton = none → ∀ b, resolveMakeVideoButton d = some b →
      b.displayed = true) := by
  refine ⟨?_, ?_, ?_, ?_⟩
  · intro b h; simp [resolveMakeVideoButton, h]
  · intro hx b h; simp [resolveMakeVideoButton, hx, h]
  · intro hx h; simp [resolveMakeVideoButton, hx, h]
  · intro hx b h
    simp only [resolveMakeVideoButton, hx] at h
    cases h2 : strategy2 d.buttons with
    | some b2 =>
      rw [h2] at h
      injection h with h3
      subst h3
      exact strategy2_displayed d.buttons _ h2
    | none =>
      rw [h2] at h
      exact strategy3_displayed d.footers b h

/-- Witness for the amended C3 at the concrete hidden-XPath DOM. -/
theorem resolver_strategy_order_witness :
    resolveMakeVideoButton dC3 = some hiddenXPathButton :=
  (resolver_strategy_order dC3).1 hiddenXPathButton rfl

/-! ## Claim C8: LearningHints are optional -/

/-- C8: prior-run learning data is optional and only adjusts wait budgets.
A missing or unreadable learning file loads as `None`; without learning
data the upload phase uses the fixed default wait budget of 5 seconds; and
whether learning data is present or not, the upload phase performs the same
steps — it succeeds on the same inputs and chooses the same file input,
only the wait budget can differ. -/
theorem learning_hints_optional :
    (load_learning FileRead.missing = none ∧ load_learning FileRead.unreadable = none) ∧
    (∀ inputs : List FileInput,
      (upload_image (load_learning FileRead.missing) inputs).waitUsed = 5) ∧
    (∀ (inputs : List FileInput) (d : LearnData),
      (upload_image none inputs).success = (upload_image (some d) inputs).success ∧
      (upload_image none inputs).chosenInput = (upload_image (some d) inputs).chosenInput) := by
  refine ⟨⟨rfl, rfl⟩, ?_, ?_⟩
  · intro inputs
    cases h : pickFileInput inputs <;> simp [upload_image, uploadWaitTime, load_learning, h]
  · intro inputs d
    cases h : pickFileInput inputs <;> simp [upload_image, h]

/-! ## Claim C10: prompt entry targets the first visible textarea -/

/-- C10: the prompt-entry phase fills and submits into the first visible
textarea in document order — selection depends only on visibility, not on
whether the placeholder matches the keyword vocabulary of the preceding
wait phase; if no visible textarea exists the phase returns `False`, which
is fatal to the run (the run exits with a phase failure and returns
`False`). -/
theorem prompt_entry_first_visible_textarea (tas : List Element) :
    ((find_and_enter_prompt tas).target = tas.find? (fun t => t.displayed)) ∧
    ((∀ t ∈ tas, t.displayed = false) →
      find_and_enter_prompt tas = ⟨false, none, none⟩) ∧
    (∀ env : Env, env.setup = SetupOutcome.okDriver → env.navigateOk = true →
      (upload_image (load_learning env.uploadLearningFile) env.fileInputs).success = true →
      env.editOk = true →
      click_make_video_button env.editorDom env.clickOutcome = true →
      (find_and_enter_prompt env.enterTextareas).success = false →
      (run_automation env none).exit = ExitKind.phaseFail ∧
      (run_automation env none).retVal = false) := by
  refine ⟨?_, ?_, ?_⟩
  · induction tas with
    | nil => rfl
    | cons t rest ih =>
      cases ht : t.displayed <;>
        simp [find_and_enter_prompt, List.find?_cons, ht, ih]
  · induction tas with
    | nil => intro _; rfl
    | cons t rest ih =>
      intro h
      have ht := h t (List.mem_cons_self t rest)
      simp only [find_and_enter_prompt, ht, Bool.false_eq_true, if_false]
      exact ih (fun u hu => h u (List.mem_cons_of_mem t hu))
  · intro env h1 h2 h3 h4 h5 h6
    have hw : (wait_for_prompt_textarea env.promptTrace).success = true :=
      waitAux_success env.promptTrace 60 0
    have hrun : run_automation env none = earlyExit false ExitKind.phaseFail true := by
      simp [run_automation, h1, phaseStep_ok, h2, h3, h4, h5, hw, phaseStep, h6]
    rw [hrun]
    exact ⟨rfl, rfl⟩

/-- A DOM state for the prompt-entry phase with no visible textarea, in an
environment whose earlier phases all succeed. -/
def envC10 : Env :=
  ⟨.okDriver, true, .missing, [⟨"files"⟩], true, ⟨some makeVideoBtn, [], []⟩,
    fun _ => Except.ok (), fun _ => PollStep.snapshot [],
    [⟨"textarea", false, "", "Describe your video", "", ""⟩],
    fun _ => ⟨[], []⟩, false⟩

/-- Witness for C10: with the only textarea hidden, the prompt-entry phase
fails and the run ends with a fatal phase outcome. -/
theorem prompt_entry_first_visible_textarea_witness :
    (run_automation envC10 none).exit = ExitKind.phaseFail :=
  ((prompt_entry_first_visible_textarea envC10.enterTextareas).2.2 envC10
    rfl rfl rfl rfl rfl rfl).1

end GrokAuto
